import Mathlib

/-!
PixelDisplay (pong repository) — shallow embedding.

Shallow embedding of `src/pixel-display.js` (class `PixelDisplay`).  JS
numbers are idealised as real numbers; the ambient clock
(`performance.now()`) becomes an explicit `now : ℝ` argument threaded
through every time-sensitive operation; the mutable 2D pixel array
becomes a function `ℕ → ℕ → Cell` updated functionally; the canvas 2D
context becomes a list of recorded draw calls (a fill style paired with
the rectangle it fills).
-/

namespace PixelDisplay

/-- One logical pixel cell: `{ state, onTimestamp, offTimestamp }`
(constructor loop, pixel-display.js lines 41–45). -/
structure Cell where
  state : Bool
  onTimestamp : ℝ
  offTimestamp : ℝ

/-- The initial cell: `{ state: false, onTimestamp: 0, offTimestamp: 0 }`. -/
def initCell : Cell := ⟨false, 0, 0⟩

/-- Constant `this.gapWidth = 1` (and `gapHeight = 1`). -/
def gapWidth : ℝ := 1

/-- Constant `this.fadeInTime = 50`. -/
def fadeInTime : ℝ := 50

/-- Constant `this.fadeOutTime = 200`. -/
def fadeOutTime : ℝ := 200

/-- Constant `this.DEGAUSS_COOLDOWN_MS = 30000`. -/
def DEGAUSS_COOLDOWN_MS : ℝ := 30000

/-- Constant `this.DEGAUSS_COOLDOWN_MIN_MS = 1000`. -/
def DEGAUSS_COOLDOWN_MIN_MS : ℝ := 1000

/-- Constant `this.DEGAUSS_DURATION_BASE_MS = 2000`. -/
def DEGAUSS_DURATION_BASE_MS : ℝ := 2000

/-- Constant `this.DEGAUSS_AMP_PX = 12`. -/
def DEGAUSS_AMP_PX : ℝ := 12

/-- Constant `this.DEGAUSS_OVERLAY_ALPHA = 0.35`. -/
def DEGAUSS_OVERLAY_ALPHA : ℝ := 0.35

/-- Constant `this.DEGAUSS_DECAY_ALPHA = 2.5`. -/
def DEGAUSS_DECAY_ALPHA : ℝ := 2.5

/-- Constant `this.DEGAUSS_FREQ_HZ = 50`. -/
def DEGAUSS_FREQ_HZ : ℝ := 50

/-- Constant `this.DEGAUSS_WAVE_K = 2.5`. -/
def DEGAUSS_WAVE_K : ℝ := 2.5

/-- The `PixelDisplay` instance state relevant to the pixel store, fade
model and degauss effect.  (`canvas`, `ctx`, `animationFrameId`,
`isRunning` are the host-surface / scheduler handles; drawing output is
modelled by `render` returning a list of draw calls instead.) -/
structure Display where
  emulatedWidth : ℕ
  emulatedHeight : ℕ
  displayWidth : ℝ
  displayHeight : ℝ
  pixels : ℕ → ℕ → Cell
  lastDegaussEndTime : ℝ
  degaussStartTime : ℝ
  degaussDuration : ℝ
  degaussStrength : ℝ

/-- Derived `pixelWidth = (displayWidth - (emulatedWidth - 1) * gapWidth) / emulatedWidth`. -/
noncomputable def Display.pixelWidth (d : Display) : ℝ :=
  (d.displayWidth - ((d.emulatedWidth : ℝ) - 1) * gapWidth) / (d.emulatedWidth : ℝ)

/-- Derived `pixelHeight = (displayHeight - (emulatedHeight - 1) * gapHeight) / emulatedHeight`. -/
noncomputable def Display.pixelHeight (d : Display) : ℝ :=
  (d.displayHeight - ((d.emulatedHeight : ℝ) - 1) * gapWidth) / (d.emulatedHeight : ℝ)

/-- The constructor: every cell starts OFF with zero timestamps, and all
degauss fields start at 0. -/
def initDisplay (emulatedWidth emulatedHeight : ℕ) (displayWidth displayHeight : ℝ) :
    Display :=
  { emulatedWidth := emulatedWidth
    emulatedHeight := emulatedHeight
    displayWidth := displayWidth
    displayHeight := displayHeight
    pixels := fun _ _ => initCell
    lastDegaussEndTime := 0
    degaussStartTime := 0
    degaussDuration := 0
    degaussStrength := 0 }

/-- The bounds check of `setPixel` / `getPixel`:
`x >= 0 && x < this.emulatedWidth && y >= 0 && y < this.emulatedHeight`. -/
def Display.inBounds (d : Display) (x y : ℤ) : Prop :=
  0 ≤ x ∧ x < (d.emulatedWidth : ℤ) ∧ 0 ≤ y ∧ y < (d.emulatedHeight : ℤ)

instance (d : Display) (x y : ℤ) : Decidable (d.inBounds x y) :=
  inferInstanceAs (Decidable (_ ∧ _ ∧ _ ∧ _))

/-- Method `setPixel(x, y, state)` (pixel-display.js lines 75–88): in bounds and
on an actual state change, set `state` and stamp `onTimestamp` (turning
ON) or `offTimestamp` (turning OFF) with the current time; otherwise do
nothing. -/
def setPixel (d : Display) (x y : ℤ) (state : Bool) (now : ℝ) : Display :=
  if d.inBounds x y then
    let pixel := d.pixels y.toNat x.toNat
    if pixel.state ≠ state then
      { d with
        pixels := fun yy xx =>
          if yy = y.toNat ∧ xx = x.toNat then
            { state := state
              onTimestamp := if state then now else pixel.onTimestamp
              offTimestamp := if state then pixel.offTimestamp else now }
          else d.pixels yy xx }
    else d
  else d

/-- Method `getPixel(x, y)` (pixel-display.js lines 96–101): the cell's state in
bounds, `false` otherwise. -/
def getPixel (d : Display) (x y : ℤ) : Bool :=
  if d.inBounds x y then (d.pixels y.toNat x.toNat).state else false

/-- Method `clear()` (pixel-display.js lines 140–148): every in-grid cell gets
`state = false` and `offTimestamp = now`. -/
def clear (d : Display) (now : ℝ) : Display :=
  { d with
    pixels := fun yy xx =>
      if yy < d.emulatedHeight ∧ xx < d.emulatedWidth then
        { state := false
          onTimestamp := (d.pixels yy xx).onTimestamp
          offTimestamp := now }
      else d.pixels yy xx }

/-- Modelled from the spec: `clearRect(x, y, w, h)` is called by the unit
tests but has no definition in `src/pixel-display.js`; per the spec it
"applies the same OFF+timestamp-reset logic to a sub-rectangle only,
clipped to grid bounds". -/
def clearRect (d : Display) (x y w h : ℤ) (now : ℝ) : Display :=
  { d with
    pixels := fun yy xx =>
      if yy < d.emulatedHeight ∧ xx < d.emulatedWidth ∧
          x ≤ (xx : ℤ) ∧ (xx : ℤ) < x + w ∧ y ≤ (yy : ℤ) ∧ (yy : ℤ) < y + h then
        { state := false
          onTimestamp := (d.pixels yy xx).onTimestamp
          offTimestamp := now }
      else d.pixels yy xx }

/-- Method `calculateBrightness(pixel, currentTime)` (pixel-display.js lines
156–195), translated branch for branch: the fade-in term (only while ON
with a nonzero `onTimestamp`), the fade-out term (whenever `offTimestamp`
is nonzero, the same formula whether the cell is currently ON or OFF),
and the final `min(1, max(fadeIn, fadeOut))`. -/
noncomputable def calculateBrightness (pixel : Cell) (currentTime : ℝ) : ℝ :=
  let fadeInBrightness : ℝ :=
    if pixel.onTimestamp > 0 then
      let onElapsed := currentTime - pixel.onTimestamp
      if pixel.state then
        if onElapsed < fadeInTime then onElapsed / fadeInTime else 1
      else 0
    else 0
  let fadeOutBrightness : ℝ :=
    if pixel.offTimestamp > 0 then
      let offElapsed := currentTime - pixel.offTimestamp
      if !pixel.state then
        if offElapsed < fadeOutTime then (1 - offElapsed / fadeOutTime) ^ 6 else 0
      else
        if offElapsed < fadeOutTime then (1 - offElapsed / fadeOutTime) ^ 6 else 0
    else 0
  min 1 (max fadeInBrightness fadeOutBrightness)

/-- The cooldown-strength computation of `degauss()` (pixel-display.js
lines 116–124), as a function of the stored `lastDegaussEndTime` and the
current time: elapsed time since the last end ("never" = full cooldown),
normalised and clamped to `[0,1]`, raised to the power 1.5. -/
noncomputable def degaussStrengthOf (lastDegaussEndTime now : ℝ) : ℝ :=
  let elapsed := if lastDegaussEndTime = 0 then DEGAUSS_COOLDOWN_MS
    else now - lastDegaussEndTime
  let x := max 0 (min 1
    ((elapsed - DEGAUSS_COOLDOWN_MIN_MS) /
      (DEGAUSS_COOLDOWN_MS - DEGAUSS_COOLDOWN_MIN_MS)))
  x ^ (1.5 : ℝ)

/-- Method `degauss()` (pixel-display.js lines 108–135): no stacking while a run
is still in flight; otherwise compute the cooldown strength, and either
record a negligible run (`strength < 0.01`: stamp `lastDegaussEndTime`
only) or start an active run. -/
noncomputable def degauss (d : Display) (now : ℝ) : Display :=
  if d.degaussStartTime ≠ 0 ∧ now - d.degaussStartTime < d.degaussDuration then d
  else
    let strength := degaussStrengthOf d.lastDegaussEndTime now
    if strength < 0.01 then { d with lastDegaussEndTime := now }
    else
      { d with
        degaussStartTime := now
        degaussDuration := DEGAUSS_DURATION_BASE_MS * strength
        degaussStrength := strength }

/-- A fill style handed to the drawing surface: either a hex string
(`ctx.fillStyle = '#000000'`) or an rgba quadruple
(`ctx.fillStyle = 'rgba(r, g, b, a)'`). -/
inductive FillStyle where
  | hex (s : String)
  | rgba (r g b : ℕ) (a : ℝ)

/-- One recorded surface interaction: a fill style followed by the
`ctx.fillRect(x, y, w, h)` it applies to. -/
structure DrawCall where
  style : FillStyle
  x : ℝ
  y : ℝ
  w : ℝ
  h : ℝ

/-- Value of `parseInt(this.onColor.substring(1, 3), 16)` for `onColor = '#39ff14'`. -/
def onColorR : ℕ := 0x39

/-- Value of `parseInt(this.onColor.substring(3, 5), 16)`. -/
def onColorG : ℕ := 0xff

/-- Value of `parseInt(this.onColor.substring(5, 7), 16)`. -/
def onColorB : ℕ := 0x14

/-- The degauss end check at the start of `render` (pixel-display.js
lines 204–207): if the marker is nonzero and the run's duration has
elapsed, reset the marker and record the end time. -/
noncomputable def renderExpiry (d : Display) (now : ℝ) : Display :=
  if d.degaussStartTime ≠ 0 ∧ now - d.degaussStartTime ≥ d.degaussDuration then
    { d with degaussStartTime := 0, lastDegaussEndTime := now }
  else d

/-- The row-major traversal order of the render loops
(`for y … for x …`). -/
def cellOrder (d : Display) : List (ℕ × ℕ) :=
  (List.range d.emulatedHeight).flatMap fun y =>
    (List.range d.emulatedWidth).map fun x => (y, x)

/-- One cell of the neutral render path (pixel-display.js lines
225–238): paint the cell's own brightness at its grid position when it
is positive. -/
noncomputable def plainCall (d : Display) (now : ℝ) (yx : ℕ × ℕ) : Option DrawCall :=
  let pixel := d.pixels yx.1 yx.2
  let brightness := calculateBrightness pixel now
  if brightness > 0 then
    let pixelX := (yx.2 : ℝ) * (d.pixelWidth + gapWidth)
    let pixelY := (yx.1 : ℝ) * (d.pixelHeight + gapWidth)
    some ⟨.rgba onColorR onColorG onColorB brightness, pixelX, pixelY,
      d.pixelWidth, d.pixelHeight⟩
  else none

/-- One cell of the degauss render path (pixel-display.js lines
242–267): backward-warp the sample position with a travelling sine wave,
clamp the source index into the grid, and paint that source cell's
brightness at the undisplaced grid position when it is positive. -/
noncomputable def warpCall (d : Display) (now : ℝ) (yx : ℕ × ℕ) : Option DrawCall :=
  let t_sec := (now - d.degaussStartTime) / 1000
  let decay := Real.exp (-DEGAUSS_DECAY_ALPHA * t_sec)
  let f := DEGAUSS_FREQ_HZ
  let k := DEGAUSS_WAVE_K
  let A := DEGAUSS_AMP_PX * d.degaussStrength
  let stepX := d.pixelWidth + gapWidth
  let stepY := d.pixelHeight + gapWidth
  let pixelX := (yx.2 : ℝ) * stepX
  let pixelY := (yx.1 : ℝ) * stepY
  let nx := pixelX / d.displayWidth
  let ny := pixelY / d.displayHeight
  let r := Real.sqrt ((nx - 0.5) ^ 2 + (ny - 0.5) ^ 2) * 2
  let edge := 0.4 + 0.6 * min 1 r
  let dx := A * edge * decay * Real.sin (2 * Real.pi * f * t_sec + 2 * Real.pi * k * nx)
  let dy := A * edge * decay *
    Real.sin (2 * Real.pi * f * t_sec + Real.pi / 2 + 2 * Real.pi * k * ny)
  let x_src := (pixelX - dx) / stepX
  let y_src := (pixelY - dy) / stepY
  let ix := (max 0 (min ((d.emulatedWidth : ℤ) - 1) ⌊x_src⌋)).toNat
  let iy := (max 0 (min ((d.emulatedHeight : ℤ) - 1) ⌊y_src⌋)).toNat
  let pixel := d.pixels iy ix
  let brightness := calculateBrightness pixel now
  if brightness > 0 then
    some ⟨.rgba onColorR onColorG onColorB brightness, pixelX, pixelY,
      d.pixelWidth, d.pixelHeight⟩
  else none

/-- The per-cell draw calls of one `render` frame, in loop order: the
neutral path when the degauss marker is zero, the warped sampling path
otherwise. -/
noncomputable def pixelCalls (d : Display) (now : ℝ) : List DrawCall :=
  if d.degaussStartTime ≠ 0 then (cellOrder d).filterMap (warpCall d now)
  else (cellOrder d).filterMap (plainCall d now)

/-- The trailing full-surface magenta overlay (pixel-display.js lines
271–274), present only while the degauss marker is nonzero. -/
noncomputable def overlayCalls (d : Display) (now : ℝ) : List DrawCall :=
  if d.degaussStartTime ≠ 0 then
    let t_sec := (now - d.degaussStartTime) / 1000
    let decay := Real.exp (-DEGAUSS_DECAY_ALPHA * t_sec)
    let overlayAlpha := decay * d.degaussStrength * DEGAUSS_OVERLAY_ALPHA
    [⟨.rgba 255 0 255 overlayAlpha, 0, 0, d.displayWidth, d.displayHeight⟩]
  else []

/-- Method `render()` (pixel-display.js lines 200–275) at an explicit time:
first the degauss end check mutates the state, then the frame is drawn
from the resulting state — black background, per-cell fills, and the
degauss overlay when active.  Returns the new state and the recorded
draw calls. -/
noncomputable def render (d : Display) (now : ℝ) : Display × List DrawCall :=
  let d' := renderExpiry d now
  (d', ⟨.hex "#000000", 0, 0, d.displayWidth, d.displayHeight⟩ ::
    (pixelCalls d' now ++ overlayCalls d' now))

/-- The strength formula exactly as claim C2 words it: `strength = x^1.5`
with `x = clamp((elapsed − 1000)/(30000 − 1000), 0, 1)`,
`elapsed = now − lastEndTime`, and `lastEndTime = 0` (never run before)
treated as a full 30000-unit cooldown. -/
noncomputable def specDegaussStrength (lastEndTime now : ℝ) : ℝ :=
  let elapsed := if lastEndTime = 0 then 30000 else now - lastEndTime
  max 0 (min 1 ((elapsed - 1000) / (30000 - 1000))) ^ (1.5 : ℝ)

/-- The two constant phrasings agree definitionally. -/
theorem specDegaussStrength_eq (lastEndTime now : ℝ) :
    specDegaussStrength lastEndTime now = degaussStrengthOf lastEndTime now := rfl

/-- Evaluating `degauss` outside the no-stacking guard, with the guard discharged
and the strength let-binding exposed. -/
theorem degauss_of_not_running (d : Display) (now : ℝ)
    (h : ¬(d.degaussStartTime ≠ 0 ∧ now - d.degaussStartTime < d.degaussDuration)) :
    degauss d now =
      if degaussStrengthOf d.lastDegaussEndTime now < 0.01 then
        { d with lastDegaussEndTime := now }
      else
        { d with
          degaussStartTime := now
          degaussDuration :=
            DEGAUSS_DURATION_BASE_MS * degaussStrengthOf d.lastDegaussEndTime now
          degaussStrength := degaussStrengthOf d.lastDegaussEndTime now } := by
  unfold degauss
  rw [if_neg h]

/-- C2: when `degauss` is called while the effect is not active, the
strength is `x^1.5` of the clamped, normalised cooldown elapsed since
`lastEndTime` (0 treated as a full 30000-unit cooldown, so a first-ever
trigger has strength exactly 1); below 0.01 it only records
`lastEndTime = now`, otherwise it enters the active state with
`startTime = now`, `duration = 2000 × strength`, and stores the
strength. -/
theorem degauss_idle_trigger (d : Display) (now : ℝ)
    (h : ¬(d.degaussStartTime ≠ 0 ∧ now - d.degaussStartTime < d.degaussDuration)) :
    (d.lastDegaussEndTime = 0 → specDegaussStrength d.lastDegaussEndTime now = 1) ∧
    (specDegaussStrength d.lastDegaussEndTime now < 0.01 →
      degauss d now = { d with lastDegaussEndTime := now }) ∧
    (¬ specDegaussStrength d.lastDegaussEndTime now < 0.01 →
      degauss d now =
        { d with
          degaussStartTime := now
          degaussDuration := 2000 * specDegaussStrength d.lastDegaussEndTime now
          degaussStrength := specDegaussStrength d.lastDegaussEndTime now }) := by
  refine ⟨?_, ?_, ?_⟩
  · intro h0
    unfold specDegaussStrength
    rw [if_pos h0]
    norm_num
  · intro hlt
    rw [degauss_of_not_running d now h,
      if_pos (specDegaussStrength_eq d.lastDegaussEndTime now ▸ hlt)]
  · intro hge
    rw [degauss_of_not_running d now h,
      if_neg (specDegaussStrength_eq d.lastDegaussEndTime now ▸ hge),
      specDegaussStrength_eq]
    rfl

/-- Witness for C2: a never-run display triggered at time 7 has strength
exactly 1 and enters a run of duration 2000. -/
theorem degauss_idle_trigger_witness :
    ¬((initDisplay 1 1 800 600).degaussStartTime ≠ 0 ∧
        (7 : ℝ) - (initDisplay 1 1 800 600).degaussStartTime <
          (initDisplay 1 1 800 600).degaussDuration) ∧
    (((initDisplay 1 1 800 600).lastDegaussEndTime = 0 →
        specDegaussStrength (initDisplay 1 1 800 600).lastDegaussEndTime 7 = 1) ∧
      (specDegaussStrength (initDisplay 1 1 800 600).lastDegaussEndTime 7 < 0.01 →
        degauss (initDisplay 1 1 800 600) 7 =
          { initDisplay 1 1 800 600 with lastDegaussEndTime := 7 }) ∧
      (¬ specDegaussStrength (initDisplay 1 1 800 600).lastDegaussEndTime 7 < 0.01 →
        degauss (initDisplay 1 1 800 600) 7 =
          { initDisplay 1 1 800 600 with
            degaussStartTime := 7
            degaussDuration :=
              2000 * specDegaussStrength (initDisplay 1 1 800 600).lastDegaussEndTime 7
            degaussStrength :=
              specDegaussStrength (initDisplay 1 1 800 600).lastDegaussEndTime 7 })) :=
  ⟨by simp [initDisplay], degauss_idle_trigger (initDisplay 1 1 800 600) 7
    (by simp [initDisplay])⟩

/-- C10: `degauss` changes `lastEndTime` only in its negligible-strength
branch, where it records `now` and touches nothing else; and when a run's
duration has elapsed but no `render` has recorded its end, a fresh
trigger still computes its strength from the previously stored
`lastEndTime` (with 0 meaning never-run inside `degaussStrengthOf`), not
from the elapsed run's actual end time. -/
theorem degauss_lastEnd_discipline (d : Display) (now : ℝ) :
    ((degauss d now).lastDegaussEndTime ≠ d.lastDegaussEndTime →
      degaussStrengthOf d.lastDegaussEndTime now < 0.01 ∧
      (degauss d now).lastDegaussEndTime = now ∧
      (degauss d now).degaussStartTime = d.degaussStartTime ∧
      (degauss d now).degaussDuration = d.degaussDuration ∧
      (degauss d now).degaussStrength = d.degaussStrength) ∧
    (d.degaussStartTime ≠ 0 → now - d.degaussStartTime ≥ d.degaussDuration →
      ¬ degaussStrengthOf d.lastDegaussEndTime now < 0.01 →
      degauss d now =
        { d with
          degaussStartTime := now
          degaussDuration :=
            DEGAUSS_DURATION_BASE_MS * degaussStrengthOf d.lastDegaussEndTime now
          degaussStrength := degaussStrengthOf d.lastDegaussEndTime now }) := by
  by_cases hrun : d.degaussStartTime ≠ 0 ∧ now - d.degaussStartTime < d.degaussDuration
  · have hd : degauss d now = d := by unfold degauss; rw [if_pos hrun]
    constructor
    · intro hne
      exact absurd (by rw [hd]) hne
    · intro _ hge _
      exact absurd hrun.2 (not_lt.mpr hge)
  · rw [degauss_of_not_running d now hrun]
    by_cases hlt : degaussStrengthOf d.lastDegaussEndTime now < 0.01
    · rw [if_pos hlt]
      exact ⟨fun _ => ⟨hlt, rfl, rfl, rfl, rfl⟩, fun _ _ hge => absurd hlt hge⟩
    · rw [if_neg hlt]
      exact ⟨fun hne => absurd rfl hne, fun _ _ _ => rfl⟩

/-- A concrete display with a recorded degauss end at time 5, used by
the closed instance below. -/
noncomputable def d10 : Display :=
  { initDisplay 1 1 800 600 with lastDegaussEndTime := 5 }

/-- Witness for C10: with `lastEndTime = 5`, a trigger at time 6 is a
negligible run (strength 0), so only `lastEndTime` moves, to 6. -/
theorem degauss_lastEnd_discipline_witness :
    (degauss d10 6).lastDegaussEndTime ≠ d10.lastDegaussEndTime ∧
    (degaussStrengthOf d10.lastDegaussEndTime 6 < 0.01 ∧
      (degauss d10 6).lastDegaussEndTime = 6 ∧
      (degauss d10 6).degaussStartTime = d10.degaussStartTime ∧
      (degauss d10 6).degaussDuration = d10.degaussDuration ∧
      (degauss d10 6).degaussStrength = d10.degaussStrength) := by
  have h5 : d10.lastDegaussEndTime = 5 := rfl
  have hstr : degaussStrengthOf d10.lastDegaussEndTime 6 = 0 := by
    rw [h5]
    unfold degaussStrengthOf DEGAUSS_COOLDOWN_MS DEGAUSS_COOLDOWN_MIN_MS
    rw [if_neg (by norm_num)]
    show (max 0 (min 1 (((6 : ℝ) - 5 - 1000) / (30000 - 1000)))) ^ (1.5 : ℝ) = 0
    rw [show max (0:ℝ) (min 1 (((6 : ℝ) - 5 - 1000) / (30000 - 1000))) = 0 by
      norm_num [min_def, max_def]]
    exact Real.zero_rpow (by norm_num)
  have hd : degauss d10 6 = { d10 with lastDegaussEndTime := 6 } := by
    rw [degauss_of_not_running d10 6 (by simp [d10, initDisplay]),
      if_pos (by rw [hstr]; norm_num)]
  have hne : (degauss d10 6).lastDegaussEndTime ≠ d10.lastDegaussEndTime := by
    rw [hd, h5]
    norm_num
  exact ⟨hne, (degauss_lastEnd_discipline d10 6).1 hne⟩

/-- C4: for every coordinate `(x, y)` outside
`[0, emulatedWidth) × [0, emulatedHeight)`, `setPixel x y s` leaves the
display (hence every cell of the grid) unchanged and does not fail, and
`getPixel x y` returns `false`. -/
theorem setPixel_getPixel_out_of_bounds (d : Display) (x y : ℤ) (s : Bool)
    (now : ℝ) (h : ¬ d.inBounds x y) :
    setPixel d x y s now = d ∧ getPixel d x y = false := by
  unfold setPixel getPixel
  rw [if_neg h, if_neg h]
  exact ⟨rfl, rfl⟩

/-- Witness for C4: on a 10×10 grid, `setPixel (-1) 0` is a no-op and
`getPixel (-1) 0` is `false`. -/
theorem setPixel_getPixel_out_of_bounds_witness :
    ¬ (initDisplay 10 10 800 600).inBounds (-1) 0 ∧
      (setPixel (initDisplay 10 10 800 600) (-1) 0 true 5 =
        initDisplay 10 10 800 600 ∧
       getPixel (initDisplay 10 10 800 600) (-1) 0 = false) :=
  ⟨by decide, setPixel_getPixel_out_of_bounds (initDisplay 10 10 800 600)
    (-1) 0 true 5 (by decide)⟩

/-- C7: for an in-bounds coordinate, `setPixel` with the cell's current
state changes nothing at all; with the opposite state it sets `state`,
stamps exactly the matching timestamp (`onTimestamp` turning ON,
`offTimestamp` turning OFF) with the current time, keeps the other
timestamp, and leaves every other cell unchanged. -/
theorem setPixel_in_bounds (d : Display) (x y : ℤ) (s : Bool) (now : ℝ)
    (h : d.inBounds x y) :
    ((d.pixels y.toNat x.toNat).state = s → setPixel d x y s now = d) ∧
    ((d.pixels y.toNat x.toNat).state ≠ s →
      (setPixel d x y s now).pixels y.toNat x.toNat =
        { state := s
          onTimestamp := if s then now else (d.pixels y.toNat x.toNat).onTimestamp
          offTimestamp := if s then (d.pixels y.toNat x.toNat).offTimestamp else now } ∧
      ∀ yy xx : ℕ, ¬(yy = y.toNat ∧ xx = x.toNat) →
        (setPixel d x y s now).pixels yy xx = d.pixels yy xx) := by
  unfold setPixel
  rw [if_pos h]
  constructor
  · intro hsame
    rw [if_neg (by simpa using hsame)]
  · intro hdiff
    rw [if_pos hdiff]
    constructor
    · simp
    · intro yy xx hne
      simp [if_neg hne]

/-- Witness for C7: on a fresh 10×10 grid, `setPixel 2 3 true` at time 5
turns cell `(3, 2)` into `⟨true, 5, 0⟩` and leaves cell `(0, 0)` alone. -/
theorem setPixel_in_bounds_witness :
    (initDisplay 10 10 800 600).inBounds 2 3 ∧
      ((initDisplay 10 10 800 600).pixels 3 2).state ≠ true ∧
      (setPixel (initDisplay 10 10 800 600) 2 3 true 5).pixels 3 2 =
        { state := true
          onTimestamp :=
            if true then (5 : ℝ)
            else ((initDisplay 10 10 800 600).pixels 3 2).onTimestamp
          offTimestamp :=
            if true then ((initDisplay 10 10 800 600).pixels 3 2).offTimestamp
            else (5 : ℝ) } ∧
      (setPixel (initDisplay 10 10 800 600) 2 3 true 5).pixels 0 0 =
        (initDisplay 10 10 800 600).pixels 0 0 := by
  refine ⟨by decide, by simp [initDisplay, initCell], ?_, ?_⟩
  · exact ((setPixel_in_bounds (initDisplay 10 10 800 600) 2 3 true 5
      (by decide)).2 (by simp [initDisplay, initCell])).1
  · exact ((setPixel_in_bounds (initDisplay 10 10 800 600) 2 3 true 5
      (by decide)).2 (by simp [initDisplay, initCell])).2 0 0 (by simp)

/-- The fade-in contribution exactly as claim C1 words it: the linear
ramp `(now − onTimestamp)/50` while the elapsed time is below 50 and 1
afterwards, but only when the cell's state is true and
`onTimestamp > 0`; otherwise 0. -/
noncomputable def specFadeIn (cell : Cell) (now : ℝ) : ℝ :=
  if cell.state = true ∧ cell.onTimestamp > 0 then
    if now - cell.onTimestamp < 50 then (now - cell.onTimestamp) / 50 else 1
  else 0

/-- The fade-out contribution exactly as claim C1 words it:
`(1 − (now − offTimestamp)/200)^6` while the elapsed time is below 200
and 0 afterwards, whenever `offTimestamp > 0`, independent of the current
state. -/
noncomputable def specFadeOut (cell : Cell) (now : ℝ) : ℝ :=
  if cell.offTimestamp > 0 then
    if now - cell.offTimestamp < 200 then
      (1 - (now - cell.offTimestamp) / 200) ^ 6
    else 0
  else 0

/-- C1: for every cell and every time, `calculateBrightness` equals
`min(1, max(fadeIn, fadeOut))` with the fade-in and fade-out
contributions of the claim — the fade-out computed the same way whether
the cell is currently ON or OFF. -/
theorem calculateBrightness_eq_spec (cell : Cell) (now : ℝ) :
    calculateBrightness cell now =
      min 1 (max (specFadeIn cell now) (specFadeOut cell now)) := by
  unfold calculateBrightness specFadeIn specFadeOut fadeInTime fadeOutTime
  cases hst : cell.state <;> simp only [hst] <;> split_ifs <;> simp_all

/-- C3: `clearRect x y w h` sets exactly the cells inside the rectangle,
clipped to the grid, to `state = false` with `offTimestamp = now`
(keeping `onTimestamp`, the same OFF-plus-timestamp logic as `clear`),
and leaves every cell outside that rectangle unchanged. -/
theorem clearRect_rect (d : Display) (x y w h : ℤ) (now : ℝ) (yy xx : ℕ) :
    (yy < d.emulatedHeight → xx < d.emulatedWidth →
      x ≤ (xx : ℤ) → (xx : ℤ) < x + w → y ≤ (yy : ℤ) → (yy : ℤ) < y + h →
      (clearRect d x y w h now).pixels yy xx =
        { state := false
          onTimestamp := (d.pixels yy xx).onTimestamp
          offTimestamp := now }) ∧
    (¬(yy < d.emulatedHeight ∧ xx < d.emulatedWidth ∧ x ≤ (xx : ℤ) ∧
        (xx : ℤ) < x + w ∧ y ≤ (yy : ℤ) ∧ (yy : ℤ) < y + h) →
      (clearRect d x y w h now).pixels yy xx = d.pixels yy xx) := by
  constructor
  · intro h1 h2 h3 h4 h5 h6
    show (if yy < d.emulatedHeight ∧ xx < d.emulatedWidth ∧ x ≤ (xx : ℤ) ∧
        (xx : ℤ) < x + w ∧ y ≤ (yy : ℤ) ∧ (yy : ℤ) < y + h then
        ({ state := false
           onTimestamp := (d.pixels yy xx).onTimestamp
           offTimestamp := now } : Cell)
      else d.pixels yy xx) = _
    exact if_pos ⟨h1, h2, h3, h4, h5, h6⟩
  · intro hn
    show (if yy < d.emulatedHeight ∧ xx < d.emulatedWidth ∧ x ≤ (xx : ℤ) ∧
        (xx : ℤ) < x + w ∧ y ≤ (yy : ℤ) ∧ (yy : ℤ) < y + h then
        ({ state := false
           onTimestamp := (d.pixels yy xx).onTimestamp
           offTimestamp := now } : Cell)
      else d.pixels yy xx) = _
    exact if_neg hn

/-- Witness for C3: on a 10×10 grid, `clearRect 1 1 3 3` at time 5 turns
cell `(2, 2)` OFF with `offTimestamp = 5`. -/
theorem clearRect_rect_witness :
    (2 < (initDisplay 10 10 800 600).emulatedHeight ∧
      2 < (initDisplay 10 10 800 600).emulatedWidth ∧
      (1 : ℤ) ≤ ((2 : ℕ) : ℤ) ∧ ((2 : ℕ) : ℤ) < 1 + 3 ∧
      (1 : ℤ) ≤ ((2 : ℕ) : ℤ) ∧ ((2 : ℕ) : ℤ) < 1 + 3) ∧
    (clearRect (initDisplay 10 10 800 600) 1 1 3 3 5).pixels 2 2 =
      { state := false
        onTimestamp := ((initDisplay 10 10 800 600).pixels 2 2).onTimestamp
        offTimestamp := 5 } :=
  ⟨by decide, (clearRect_rect (initDisplay 10 10 800 600) 1 1 3 3 5 2 2).1
    (by decide) (by decide) (by decide) (by decide) (by decide) (by decide)⟩

/-- C8: calling `degauss` while a run is in flight
(`degaussStartTime ≠ 0` and `now − degaussStartTime < degaussDuration`)
leaves the whole display — in particular `startTime`, `duration`,
`strength` and `lastEndTime` — unchanged. -/
theorem degauss_active_noop (d : Display) (now : ℝ)
    (h1 : d.degaussStartTime ≠ 0)
    (h2 : now - d.degaussStartTime < d.degaussDuration) :
    degauss d now = d := by
  unfold degauss
  rw [if_pos ⟨h1, h2⟩]

/-- Witness for C8: a display with a run started at 1 of duration 2000 is
untouched by `degauss` at time 100. -/
theorem degauss_active_noop_witness :
    ({ initDisplay 10 10 800 600 with
        degaussStartTime := 1, degaussDuration := 2000 } : Display).degaussStartTime ≠ 0 ∧
    (100 : ℝ) - ({ initDisplay 10 10 800 600 with
        degaussStartTime := 1, degaussDuration := 2000 } : Display).degaussStartTime <
      ({ initDisplay 10 10 800 600 with
        degaussStartTime := 1, degaussDuration := 2000 } : Display).degaussDuration ∧
    degauss ({ initDisplay 10 10 800 600 with
        degaussStartTime := 1, degaussDuration := 2000 } : Display) 100 =
      ({ initDisplay 10 10 800 600 with
        degaussStartTime := 1, degaussDuration := 2000 } : Display) :=
  ⟨by norm_num [initDisplay], by norm_num [initDisplay],
    degauss_active_noop _ 100 (by norm_num [initDisplay]) (by norm_num [initDisplay])⟩

/-- C5: at the start of every `render` call, if the degauss marker is
nonzero and `now − startTime ≥ duration`, the state component of `render`
is the input display with `degaussStartTime := 0` and
`lastDegaussEndTime := now` (duration and strength untouched); in every
other case the state component is the input display unchanged. -/
theorem render_expiry (d : Display) (now : ℝ) :
    (d.degaussStartTime ≠ 0 → now - d.degaussStartTime ≥ d.degaussDuration →
      (render d now).1 =
        { d with degaussStartTime := 0, lastDegaussEndTime := now }) ∧
    (¬(d.degaussStartTime ≠ 0 ∧ now - d.degaussStartTime ≥ d.degaussDuration) →
      (render d now).1 = d) := by
  constructor
  · intro h1 h2
    show renderExpiry d now = _
    unfold renderExpiry
    rw [if_pos ⟨h1, h2⟩]
  · intro h
    show renderExpiry d now = _
    unfold renderExpiry
    rw [if_neg h]

/-- Witness for C5: triggering expiry concretely — a run started at 1 of
duration 2000 is reset by `render` at time 2500, with the end time
recorded. -/
theorem render_expiry_witness :
    ({ initDisplay 10 10 800 600 with
        degaussStartTime := 1, degaussDuration := 2000 } : Display).degaussStartTime ≠ 0 ∧
    (2500 : ℝ) - ({ initDisplay 10 10 800 600 with
        degaussStartTime := 1, degaussDuration := 2000 } : Display).degaussStartTime ≥
      ({ initDisplay 10 10 800 600 with
        degaussStartTime := 1, degaussDuration := 2000 } : Display).degaussDuration ∧
    (render ({ initDisplay 10 10 800 600 with
        degaussStartTime := 1, degaussDuration := 2000 } : Display) 2500).1 =
      { ({ initDisplay 10 10 800 600 with
          degaussStartTime := 1, degaussDuration := 2000 } : Display) with
        degaussStartTime := 0, lastDegaussEndTime := 2500 } :=
  ⟨by norm_num [initDisplay], by norm_num [initDisplay],
    (render_expiry _ 2500).1 (by norm_num [initDisplay]) (by norm_num [initDisplay])⟩

/-- The degauss end check never touches the pixel grid. -/
theorem renderExpiry_pixels (d : Display) (now : ℝ) :
    (renderExpiry d now).pixels = d.pixels := by
  unfold renderExpiry
  split_ifs <;> rfl

/-- The degauss end check never touches the grid height. -/
theorem renderExpiry_emulatedHeight (d : Display) (now : ℝ) :
    (renderExpiry d now).emulatedHeight = d.emulatedHeight := by
  unfold renderExpiry
  split_ifs <;> rfl

/-- The degauss end check never touches the grid width. -/
theorem renderExpiry_emulatedWidth (d : Display) (now : ℝ) :
    (renderExpiry d now).emulatedWidth = d.emulatedWidth := by
  unfold renderExpiry
  split_ifs <;> rfl

/-- The degauss end check never touches the surface width. -/
theorem renderExpiry_displayWidth (d : Display) (now : ℝ) :
    (renderExpiry d now).displayWidth = d.displayWidth := by
  unfold renderExpiry
  split_ifs <;> rfl

/-- The degauss end check never touches the surface height. -/
theorem renderExpiry_displayHeight (d : Display) (now : ℝ) :
    (renderExpiry d now).displayHeight = d.displayHeight := by
  unfold renderExpiry
  split_ifs <;> rfl

/-- Membership in the render traversal order is exactly in-grid
position. -/
theorem mem_cellOrder {d : Display} {yx : ℕ × ℕ} (h : yx ∈ cellOrder d) :
    yx.1 < d.emulatedHeight ∧ yx.2 < d.emulatedWidth := by
  unfold cellOrder at h
  simp only [List.mem_flatMap, List.mem_map, List.mem_range] at h
  obtain ⟨y, hy, x, hx, rfl⟩ := h
  exact ⟨hy, hx⟩

/-- The clamped warp source index lands inside a nonempty grid axis. -/
theorem clampIndex_lt (n : ℕ) (z : ℤ) (hn : 0 < n) :
    (max 0 (min ((n : ℤ) - 1) z)).toNat < n := by
  have h1 : max 0 (min ((n : ℤ) - 1) z) ≤ (n : ℤ) - 1 :=
    max_le (by omega) (min_le_left _ _)
  omega

/-- A cell whose brightness is zero produces no neutral-path draw call. -/
theorem plainCall_eq_none (d : Display) (now : ℝ) (yx : ℕ × ℕ)
    (h : calculateBrightness (d.pixels yx.1 yx.2) now = 0) :
    plainCall d now yx = none := by
  simp only [plainCall]
  rw [h]
  simp

/-- When every grid cell's brightness is zero, the warped sampling path
draws nothing either: the clamped source index is a grid cell. -/
theorem warpCall_eq_none (d : Display) (now : ℝ) (yx : ℕ × ℕ)
    (h : ∀ yy xx : ℕ, yy < d.emulatedHeight → xx < d.emulatedWidth →
      calculateBrightness (d.pixels yy xx) now = 0)
    (hH : 0 < d.emulatedHeight) (hW : 0 < d.emulatedWidth) :
    warpCall d now yx = none := by
  simp only [warpCall]
  rw [h _ _ (clampIndex_lt _ _ hH) (clampIndex_lt _ _ hW)]
  simp

/-- When every grid cell's brightness is zero, neither render path emits
a per-pixel draw call. -/
theorem pixelCalls_eq_nil (d : Display) (now : ℝ)
    (h : ∀ yy xx : ℕ, yy < d.emulatedHeight → xx < d.emulatedWidth →
      calculateBrightness (d.pixels yy xx) now = 0) :
    pixelCalls d now = [] := by
  unfold pixelCalls
  split_ifs
  · rw [List.filterMap_eq_nil_iff]
    intro yx hyx
    obtain ⟨hy, hx⟩ := mem_cellOrder hyx
    exact warpCall_eq_none d now yx h (lt_of_le_of_lt (Nat.zero_le _) hy)
      (lt_of_le_of_lt (Nat.zero_le _) hx)
  · rw [List.filterMap_eq_nil_iff]
    intro yx hyx
    obtain ⟨hy, hx⟩ := mem_cellOrder hyx
    exact plainCall_eq_none d now yx (h _ _ hy hx)

/-- A cleared cell (`state = false`, `offTimestamp = now`) is fully dark
once 200 time-units have passed. -/
theorem calculateBrightness_cleared (onT now t : ℝ) (h : t - now ≥ 200) :
    calculateBrightness ⟨false, onT, now⟩ t = 0 := by
  have hnl : ¬ (t - now < 200) := not_lt.mpr h
  simp only [calculateBrightness, fadeInTime, fadeOutTime, hnl]
  split_ifs <;> first | contradiction | norm_num

/-- C6: `clear` sets every grid cell's `state` to false and
`offTimestamp` to the current time regardless of prior state; for any
`t` with `t − clearTime ≥ 200`, every grid cell's brightness at `t` is 0,
so a `render` at such a `t` emits no per-pixel fill — only the black
background and, when the degauss marker is set, the overlay. -/
theorem clear_then_dark (d : Display) (now t : ℝ) :
    (∀ yy xx : ℕ, yy < d.emulatedHeight → xx < d.emulatedWidth →
      (clear d now).pixels yy xx =
        { state := false
          onTimestamp := (d.pixels yy xx).onTimestamp
          offTimestamp := now }) ∧
    (t - now ≥ 200 →
      (∀ yy xx : ℕ, yy < d.emulatedHeight → xx < d.emulatedWidth →
        calculateBrightness ((clear d now).pixels yy xx) t = 0) ∧
      (render (clear d now) t).2 =
        ⟨.hex "#000000", 0, 0, d.displayWidth, d.displayHeight⟩ ::
          overlayCalls (renderExpiry (clear d now) t) t) := by
  have hcell : ∀ yy xx : ℕ, yy < d.emulatedHeight → xx < d.emulatedWidth →
      (clear d now).pixels yy xx =
        { state := false
          onTimestamp := (d.pixels yy xx).onTimestamp
          offTimestamp := now } := by
    intro yy xx hy hx
    show (if yy < d.emulatedHeight ∧ xx < d.emulatedWidth then _ else _) = _
    exact if_pos ⟨hy, hx⟩
  refine ⟨hcell, fun ht => ?_⟩
  have hb : ∀ yy xx : ℕ, yy < d.emulatedHeight → xx < d.emulatedWidth →
      calculateBrightness ((clear d now).pixels yy xx) t = 0 := by
    intro yy xx hy hx
    rw [hcell yy xx hy hx]
    exact calculateBrightness_cleared _ now t ht
  refine ⟨hb, ?_⟩
  have hnil : pixelCalls (renderExpiry (clear d now) t) t = [] := by
    apply pixelCalls_eq_nil
    intro yy xx hy hx
    rw [renderExpiry_pixels]
    rw [renderExpiry_emulatedHeight] at hy
    rw [renderExpiry_emulatedWidth] at hx
    exact hb yy xx hy hx
  have hr : (render (clear d now) t).2 =
      ⟨.hex "#000000", 0, 0, d.displayWidth, d.displayHeight⟩ ::
        (pixelCalls (renderExpiry (clear d now) t) t ++
          overlayCalls (renderExpiry (clear d now) t) t) := rfl
  rw [hr, hnil, List.nil_append]

/-- Witness for C6: on a 2×2 grid cleared at time 1, cell `(0, 0)` is
dark at time 300 and the frame drawn at 300 is background-only. -/
theorem clear_then_dark_witness :
    ((300 : ℝ) - 1 ≥ 200) ∧
    (0 < (initDisplay 2 2 800 600).emulatedHeight ∧
      0 < (initDisplay 2 2 800 600).emulatedWidth) ∧
    calculateBrightness ((clear (initDisplay 2 2 800 600) 1).pixels 0 0) 300 = 0 ∧
    (render (clear (initDisplay 2 2 800 600) 1) 300).2 =
      ⟨.hex "#000000", 0, 0, (initDisplay 2 2 800 600).displayWidth,
        (initDisplay 2 2 800 600).displayHeight⟩ ::
        overlayCalls (renderExpiry (clear (initDisplay 2 2 800 600) 1) 300) 300 := by
  refine ⟨by norm_num, ⟨by norm_num [initDisplay], by norm_num [initDisplay]⟩, ?_, ?_⟩
  · exact ((clear_then_dark (initDisplay 2 2 800 600) 1 300).2 (by norm_num)).1 0 0
      (by norm_num [initDisplay]) (by norm_num [initDisplay])
  · exact ((clear_then_dark (initDisplay 2 2 800 600) 1 300).2 (by norm_num)).2

/-- The degauss end check is idempotent at a fixed time: once it has
fired (or refused to fire), running it again at the same `now` changes
nothing. -/
theorem renderExpiry_idem (d : Display) (now : ℝ) :
    renderExpiry (renderExpiry d now) now = renderExpiry d now := by
  by_cases h : d.degaussStartTime ≠ 0 ∧ now - d.degaussStartTime ≥ d.degaussDuration
  · have h1 : renderExpiry d now =
        { d with degaussStartTime := 0, lastDegaussEndTime := now } := by
      unfold renderExpiry
      rw [if_pos h]
    rw [h1]
    unfold renderExpiry
    rw [if_neg]
    intro hc
    exact hc.1 rfl
  · have h1 : renderExpiry d now = d := by
      unfold renderExpiry
      rw [if_neg h]
    rw [h1, h1]

/-- C9: `render` is idempotent with respect to time — rendering again at
the same `now`, from the state the first call produced, yields exactly
the same new state and the same draw-call sequence, even when the first
call performed the degauss expiry transition. -/
theorem render_idempotent (d : Display) (now : ℝ) :
    render (render d now).1 now = render d now := by
  show render (renderExpiry d now) now = render d now
  unfold render
  rw [renderExpiry_idem, renderExpiry_displayWidth, renderExpiry_displayHeight]

end PixelDisplay
